import Mathlib

/-!
Verification of the Hazard-Atlas recall tool against its specification.

The development shallowly embeds the server (`index.js`, given as
`src/unnamed/part_000`) and the client (`src/public/app.js`):

* JS strings are Lean `String`s (lists of characters); `String.prototype.slice`
  on in-range indices is `List.take`/`List.drop` on `String.data`.
* JS falsiness of possibly-absent string fields (`undefined`, `null`, `""`)
  is modelled by `Option String` together with `truthyStr`.
* Network effects are modelled by oracles passed in as function arguments:
  a page oracle for pagination, an attempt-outcome oracle for the retry loop,
  and an environment record for the `/api/recalls` handler.  Each model
  additionally returns a trace of the outbound requests it performed, so that
  claims about "how many requests" are statable.
* The `while` loops of the source are embedded as fuel-indexed structural
  recursions; the fuel bounds are justified by fuel-stability lemmas.
-/

namespace HazardAtlas

/-- Raw openFDA enforcement record: the fields that `normalize` in
`src/unnamed/part_000` reads.  Every field is optional, matching the
defensive `item.x || ...` accesses of the source. -/
structure RawItem where
  serial_number : Option String
  recall_number : Option String
  report_date : Option String
  classification : Option String
  product_description : Option String
  product_type : Option String
  recalling_firm : Option String
  reason_for_recall : Option String
  product_quantity : Option String
  address_1 : Option String
  distribution_pattern : Option String
  city : Option String
  state : Option String
  country : Option String
deriving DecidableEq

/-- The unified record shape produced by `normalize` (server, lines 175-194). -/
structure UnifiedRecord where
  id : String
  type : String
  report_date : Option String
  raw_report_date : Option String
  classification : Option String
  product_description : Option String
  recalling_firm : Option String
  reason_for_recall : Option String
  product_quantity : Option String
  address_1 : Option String
  city : Option String
  state : Option String
  country : String
  original : RawItem
deriving DecidableEq

/-- The empty raw item (all fields absent), used to build concrete inputs. -/
def emptyRawItem : RawItem :=
  ⟨none, none, none, none, none, none, none, none, none, none, none, none, none, none⟩

/-! Date parsing (`parseReportDate`, server lines 16-27). -/

/-- Numeric value of a decimal-digit character list (the only case the date
model needs; the strings it is applied to are checked to be all digits). -/
def digitsVal (l : List Char) : Nat :=
  l.foldl (fun a c => a * 10 + (c.toNat - 48)) 0

/-- Gregorian leap year, as used by the ECMAScript Date type. -/
def isLeapYear (y : Nat) : Bool :=
  (y % 4 == 0 && !(y % 100 == 0)) || y % 400 == 0

/-- Number of days of month `m` in year `y` (proleptic Gregorian calendar). -/
def daysInMonth (y m : Nat) : Nat :=
  if m == 2 then (if isLeapYear y then 29 else 28)
  else if m == 4 || m == 6 || m == 9 || m == 11 then 30
  else 31

/-- Checks that the strings `y`, `m`, `d` form a valid extended-ISO calendar
date `y-m-d`: correct widths, all digits, month in 1..12 and day in range for
that month.  This is the validity test the ECMAScript Date Time String Format
applies to a date-only string `YYYY-MM-DD`. -/
def validDateParts (y m d : List Char) : Bool :=
  y.length == 4 && m.length == 2 && d.length == 2
    && y.all Char.isDigit && m.all Char.isDigit && d.all Char.isDigit
    && decide (1 ≤ digitsVal m) && decide (digitsVal m ≤ 12)
    && decide (1 ≤ digitsVal d)
    && decide (digitsVal d ≤ daysInMonth (digitsVal y) (digitsVal m))

/-- Model of `new Date(y + "-" + m + "-" + d).toISOString()` wrapped in the
source's try/catch: for a string matching the ECMAScript Date Time String
Format (date-only form), the Date denotes that calendar day at UTC midnight
and `toISOString` renders it back as `YYYY-MM-DDT00:00:00.000Z`; a string
whose parts fail the format's validity check yields an Invalid Date, whose
`toISOString` throws, which the source catches and turns into `null`.
Strings not matching the format at all fall to engine-specific legacy parsing;
the model maps those to `none` as well (no claim depends on them). -/
def jsDateOnlyToISO (y m d : List Char) : Option String :=
  if validDateParts y m d then
    some (String.mk y ++ "-" ++ String.mk m ++ "-" ++ String.mk d ++ "T00:00:00.000Z")
  else none

/-- Embedding of `parseReportDate` (server lines 16-27): an 8-character token
is sliced as `YYYY`/`MM`/`DD` and run through the Date constructor; any other
length returns `null`. -/
def parseReportDate (s : String) : Option String :=
  if s.length ≠ 8 then none
  else jsDateOnlyToISO (s.data.take 4) ((s.data.drop 4).take 2) ((s.data.drop 6).take 2)

/-! JavaScript truthiness helpers for optional string fields. -/

/-- Truthiness of a possibly-absent string: `undefined`/`null`/`""` are falsy. -/
def truthyStr : Option String → Bool
  | none => false
  | some s => !(s == "")

/-- Model of `a || b` on possibly-absent strings. -/
def jsOrStr (a b : Option String) : Option String :=
  if truthyStr a then a else b

/-- Model of `a || null` on a possibly-absent string. -/
def jsOrNullStr (a : Option String) : Option String :=
  if truthyStr a then a else none

/-- Model of `a || dflt` where the result is used as a present string. -/
def jsOrDefaultStr (a : Option String) (dflt : String) : String :=
  match a with
  | some s => if s == "" then dflt else s
  | none => dflt

/-! Normalization (`normalize`, server lines 175-194). -/

/-- Embedding of `normalize(item, type)`.  The `Math.random().toString(36).slice(2, 9)`
suffix of the fallback identifier is nondeterministic at the JS level; the model
takes it as the explicit argument `rand`. -/
def normalize (rand : String) (item : RawItem) (ty : String) : UnifiedRecord where
  id := jsOrDefaultStr (jsOrStr item.serial_number item.recall_number) (ty ++ "_" ++ rand)
  type := ty
  report_date :=
    match item.report_date with
    | none => none
    | some s => jsOrNullStr (parseReportDate s)
  raw_report_date := jsOrNullStr item.report_date
  classification := jsOrNullStr item.classification
  product_description := jsOrNullStr (jsOrStr item.product_description item.product_type)
  recalling_firm := jsOrNullStr item.recalling_firm
  reason_for_recall := jsOrNullStr item.reason_for_recall
  product_quantity := jsOrNullStr item.product_quantity
  address_1 := jsOrNullStr (jsOrStr item.address_1 item.distribution_pattern)
  city := jsOrNullStr item.city
  state := jsOrNullStr item.state
  country := jsOrDefaultStr item.country "USA"
  original := item

/-! Claim C4: behavior of `parseReportDate`. -/

/-- C4: `parseReportDate` maps a token whose string form has exactly 8
characters and denotes a valid calendar date `YYYYMMDD` to the ISO-8601
string for that Y-M-D at UTC midnight, and maps a token of any other
length to `null`. -/
theorem C4_parse_report_date (s : String) :
    (s.length = 8 →
      validDateParts (s.data.take 4) ((s.data.drop 4).take 2) ((s.data.drop 6).take 2) = true →
      parseReportDate s =
        some (String.mk (s.data.take 4) ++ "-" ++ String.mk ((s.data.drop 4).take 2) ++ "-"
          ++ String.mk ((s.data.drop 6).take 2) ++ "T00:00:00.000Z"))
    ∧ (s.length ≠ 8 → parseReportDate s = none) := by
  constructor
  · intro h8 hv
    rw [parseReportDate, if_neg (by simp [h8]), jsDateOnlyToISO, if_pos hv]
  · intro h8
    rw [parseReportDate, if_pos h8]

/-- C4 witness: `"20210315"` maps to `"2021-03-15T00:00:00.000Z"`, and the
4-character token `"2021"` maps to `null`. -/
theorem C4_parse_report_date_witness :
    parseReportDate "20210315" = some "2021-03-15T00:00:00.000Z"
    ∧ parseReportDate "2021" = none := by
  constructor
  · exact ((C4_parse_report_date "20210315").1 (by decide) (by decide)).trans (by decide)
  · exact (C4_parse_report_date "2021").2 (by decide)

/-! Claim C8: totality and defaults of `normalize`. -/

/-- C8: `normalize` returns a unified record whose type field is exactly the
declared type (hence one of the two enumerated values when the declared type
is one of them), maps an absent country to `"USA"` and other absent fields to
`null`, and falls back to a type-prefixed generated identifier when neither
`serial_number` nor `recall_number` is present.  The embedding is a total
function, matching the "never raises" part of the claim. -/
theorem C8_normalize_defaults (rand ty : String) (item : RawItem)
    (hty : ty = "Food" ∨ ty = "Drug") :
    (normalize rand item ty).type = ty
    ∧ ((normalize rand item ty).type = "Food" ∨ (normalize rand item ty).type = "Drug")
    ∧ (item.country = none → (normalize rand item ty).country = "USA")
    ∧ (item.classification = none → (normalize rand item ty).classification = none)
    ∧ (item.recalling_firm = none → (normalize rand item ty).recalling_firm = none)
    ∧ (item.reason_for_recall = none → (normalize rand item ty).reason_for_recall = none)
    ∧ (item.product_quantity = none → (normalize rand item ty).product_quantity = none)
    ∧ (item.city = none → (normalize rand item ty).city = none)
    ∧ (item.state = none → (normalize rand item ty).state = none)
    ∧ (item.report_date = none →
        (normalize rand item ty).report_date = none
          ∧ (normalize rand item ty).raw_report_date = none)
    ∧ (item.product_description = none → item.product_type = none →
        (normalize rand item ty).product_description = none)
    ∧ (item.address_1 = none → item.distribution_pattern = none →
        (normalize rand item ty).address_1 = none)
    ∧ (item.serial_number = none → item.recall_number = none →
        (normalize rand item ty).id = ty ++ "_" ++ rand) := by
  refine ⟨rfl, ?_, ?_, ?_, ?_, ?_, ?_, ?_, ?_, ?_, ?_, ?_, ?_⟩
  · rcases hty with h | h
    · exact Or.inl (by rw [h]; rfl)
    · exact Or.inr (by rw [h]; rfl)
  all_goals intros
  all_goals simp_all [normalize, jsOrNullStr, jsOrStr, jsOrDefaultStr, truthyStr]

/-- C8 witness: `C8_normalize_defaults` applied to the all-absent raw item with
declared type `"Food"`. -/
theorem C8_normalize_defaults_witness :
    (normalize "x1y2z3a" emptyRawItem "Food").type = "Food"
    ∧ (normalize "x1y2z3a" emptyRawItem "Food").country = "USA"
    ∧ (normalize "x1y2z3a" emptyRawItem "Food").classification = none
    ∧ (normalize "x1y2z3a" emptyRawItem "Food").id = "Food" ++ "_" ++ "x1y2z3a" := by
  have h := C8_normalize_defaults "x1y2z3a" "Food" emptyRawItem (Or.inl rfl)
  exact ⟨h.1, h.2.2.1 rfl, h.2.2.2.1 rfl, h.2.2.2.2.2.2.2.2.2.2.2.2 rfl rfl⟩

/-! Retry loop (`fetchOpenFda`, server lines 30-103). -/

/-- Body snippet for a rejected response (server lines 68-69): bodies longer
than 500 characters are cut to their first 500 characters plus an ellipsis
marker; shorter bodies are kept whole. -/
def snippetOf (data : String) : String :=
  if 500 < data.length then String.mk (data.data.take 500) ++ "..." else data

/-- Embedding of the response handler of one HTTP attempt (server lines
63-77): a status code of 400 or above rejects with an error wrapping the
status and a body snippet; any other status resolves by JSON-parsing the
body, whose failure also rejects.  The host JSON parser is abstracted as the
`parseJson` oracle. -/
def handleResponse {ρ : Type} (parseJson : String → Except String ρ)
    (statusCode : Nat) (data : String) : Except String ρ :=
  if 400 ≤ statusCode then
    Except.error ("HTTP " ++ toString statusCode ++ ": " ++ snippetOf data)
  else parseJson data

/-- Embedding of the attempt loop of `fetchOpenFda` (server lines 52-102).
`outcome i` is the result of the i-th HTTP attempt (1-based); `remaining`
counts the attempts still allowed, so the loop's `attempt === attempts` exit
test is `remaining = 1`.  The first component is the value returned or the
error finally thrown (`none` is the `undefined` a zero-iteration loop would
return; unreachable for positive attempt counts); the second component is the
list of backoff delays (in ms) slept between attempts. -/
def retryGo {ε ρ : Type} (outcome : Nat → Except ε ρ) :
    Nat → Nat → Option (Except ε ρ) × List Nat
  | _, 0 => (none, [])
  | attempt, remaining + 1 =>
    match outcome attempt with
    | Except.ok r => (some (Except.ok r), [])
    | Except.error e =>
      if remaining = 0 then (some (Except.error e), [])
      else
        ((retryGo outcome (attempt + 1) remaining).1,
          700 * 2 ^ (attempt - 1) :: (retryGo outcome (attempt + 1) remaining).2)

/-- Embedding of `fetchOpenFda(url, attempts)` (server lines 30-103): the
`attempts = attempts || 3` normalization (default 3) followed by the attempt
loop starting at attempt 1. -/
def fetchOpenFda {ε ρ : Type} (outcome : Nat → Except ε ρ) (attempts : Nat) :
    Option (Except ε ρ) × List Nat :=
  retryGo outcome 1 (if attempts = 0 then 3 else attempts)

/-- Outcome oracle of a source that fails on attempts 1 and 2 and succeeds on
attempt 3. -/
def failTwiceOutcome : Nat → Except String Nat :=
  fun a => if a ≤ 2 then Except.error ("attempt " ++ toString a ++ " failed") else Except.ok 42

/-- Closed form of the retry loop when every attempt fails: the error of the
last allowed attempt is thrown, after backoffs `700 * 2 ^ (attempt - 1)`. -/
theorem retryGo_all_error {ε ρ : Type} (e : Nat → ε) :
    ∀ rem k,
      retryGo (ρ := ρ) (fun i => Except.error (e i)) (k + 1) (rem + 1) =
        (some (Except.error (e (k + 1 + rem))),
          (List.range rem).map fun i => 700 * 2 ^ (k + i)) := by
  intro rem
  induction rem with
  | zero => intro k; simp [retryGo]
  | succ n ih =>
    intro k
    rw [retryGo]
    simp only [Nat.succ_ne_zero, if_false]
    rw [ih (k + 1)]
    rw [List.range_succ_eq_map, List.map_cons, List.map_map]
    simp only [Prod.mk.injEq, Option.some.injEq, Except.error.injEq, List.cons.injEq]
    refine ⟨by congr 1; omega, by simp, ?_⟩
    apply List.map_congr_left
    intro i _
    simp only [Function.comp_apply]
    congr 1
    congr 1
    omega

/-! Claim C2: retry count, backoff schedule, and error propagation. -/

/-- C2: with the default 3 attempts, a source failing on attempts 1 and 2 and
succeeding on attempt 3 returns the success, after backoff delays of 700ms
and 1400ms; for every attempt budget, if all attempts fail, the last error is
thrown after backoffs `700 * 2 ^ (attempt - 1)`, and a source succeeding
immediately returns without any delay. -/
theorem C2_retry_backoff :
    fetchOpenFda failTwiceOutcome 3 = (some (Except.ok 42), [700, 1400])
    ∧ (∀ (ε ρ : Type) (e : Nat → ε) (attempts : Nat), 1 ≤ attempts →
        fetchOpenFda (ρ := ρ) (fun i => Except.error (e i)) attempts =
          (some (Except.error (e attempts)),
            (List.range (attempts - 1)).map fun i => 700 * 2 ^ i))
    ∧ (∀ (ε ρ : Type) (r : ρ) (attempts : Nat),
        fetchOpenFda (ε := ε) (fun _ => Except.ok r) attempts = (some (Except.ok r), [])) := by
  refine ⟨rfl, ?_, ?_⟩
  · intro ε ρ e attempts h
    obtain ⟨m, rfl⟩ : ∃ m, attempts = m + 1 := ⟨attempts - 1, by omega⟩
    rw [fetchOpenFda, if_neg (by omega)]
    have h0 : (1 : Nat) = 0 + 1 := rfl
    rw [h0, retryGo_all_error e m 0]
    simp [Nat.add_comm]
  · intro ε ρ r attempts
    rw [fetchOpenFda]
    rcases Nat.eq_zero_or_pos attempts with h | h
    · rw [if_pos h]; rfl
    · rw [if_neg (by omega)]
      obtain ⟨m, rfl⟩ : ∃ m, attempts = m + 1 := ⟨attempts - 1, by omega⟩
      rfl

/-- C2 witness: `C2_retry_backoff` applied to an all-failing source with a
3-attempt budget: the error of attempt 3 is thrown after delays 700 and
1400. -/
theorem C2_retry_backoff_witness :
    fetchOpenFda (ρ := Nat) (fun i => Except.error ("e" ++ toString i)) 3 =
      (some (Except.error "e3"), [700, 1400]) := by
  have h := C2_retry_backoff.2.1 String Nat (fun i => "e" ++ toString i) 3 (by omega)
  exact h.trans rfl

/-! Claim C6: treatment of error-status responses. -/

/-- C6 counterexample: a response with status code 301 — outside the 2xx
range — is not treated as a failure by the handler, which checks
`statusCode >= 400`: with a body that parses, the attempt resolves
successfully. -/
theorem C6_counterexample :
    (301 < 200 ∨ 299 < 301)
    ∧ handleResponse (fun s => Except.ok s) 301 "redirect-body" =
        Except.ok "redirect-body" := by
  exact ⟨Or.inr (by omega), rfl⟩

/-- C6 (amended): every response with status code 400 or above is treated as
a failure wrapping the status and a body snippet (the whole body when it has
at most 500 characters, its first 500 characters plus an ellipsis marker
otherwise), and such an error makes the retry loop back off 700ms and move to
the next attempt, exactly like a transport error, rather than return it as a
result. -/
theorem C6_http_error_retried {ρ : Type} (parseJson : String → Except String ρ)
    (status : Nat) (data : String) (h : 400 ≤ status) :
    handleResponse parseJson status data =
        Except.error ("HTTP " ++ toString status ++ ": " ++ snippetOf data)
    ∧ (data.length ≤ 500 → snippetOf data = data)
    ∧ (500 < data.length →
        snippetOf data = String.mk (data.data.take 500) ++ "..."
          ∧ (snippetOf data).length = 503)
    ∧ (∀ (outcome : Nat → Except String ρ) (rem : Nat),
        outcome 1 = handleResponse parseJson status data →
        retryGo outcome 1 (rem + 2) =
          ((retryGo outcome 2 (rem + 1)).1, 700 :: (retryGo outcome 2 (rem + 1)).2)) := by
  refine ⟨by rw [handleResponse, if_pos h], ?_, ?_, ?_⟩
  · intro hlen
    rw [snippetOf, if_neg (by omega)]
  · intro hlen
    refine ⟨by rw [snippetOf, if_pos hlen], ?_⟩
    rw [snippetOf, if_pos hlen, String.length_append]
    have : (String.mk (data.data.take 500)).length = 500 := by
      show (data.data.take 500).length = 500
      rw [List.length_take]
      have : data.length = data.data.length := rfl
      omega
    rw [this]
    rfl
  · intro outcome rem h1
    rw [retryGo, h1, handleResponse, if_pos h]
    simp

/-- C6 witness: `C6_http_error_retried` applied to a 404 response with a short
body. -/
theorem C6_http_error_retried_witness :
    handleResponse (fun s => Except.ok s) 404 "not found" = Except.error "HTTP 404: not found" := by
  have h := C6_http_error_retried (fun s => Except.ok s) 404 "not found" (by omega)
  exact h.1.trans rfl

/-! Pagination (`fetchAllOpenFda`, server lines 117-139). -/

/-- Embedding of the paging loop of `fetchAllOpenFda`.  `pages take skip` is
the `results` array the endpoint returns for a request with `limit=take` and
`skip=skip` (the success path; a thrown fetch error aborts the whole
aggregation and is modelled at the handler level).  The loop runs while
`acc.length < maxRecords`; each round requests
`min pageSize (maxRecords - acc.length)` records, appends the returned page,
stops on an empty or short page, and otherwise advances `skip` by the number
of records the page returned.  The `fuel` argument makes the recursion
structural; every continuing round appends at least one record, so
`maxRecords` rounds always suffice (`fetchAllGo_fuel_stable`).  The second
component is the request log: the `(limit, skip)` pairs requested, in
order. -/
def fetchAllGo {α : Type} (pages : Nat → Nat → List α) (maxRecords pageSize : Nat) :
    Nat → List α → Nat → List (Nat × Nat) → List α × List (Nat × Nat)
  | 0, acc, _, log => (acc, log)
  | fuel + 1, acc, skip, log =>
    if acc.length < maxRecords then
      if (pages (min pageSize (maxRecords - acc.length)) skip).length = 0 then
        (acc, log ++ [(min pageSize (maxRecords - acc.length), skip)])
      else if (pages (min pageSize (maxRecords - acc.length)) skip).length
          < min pageSize (maxRecords - acc.length) then
        (acc ++ pages (min pageSize (maxRecords - acc.length)) skip,
          log ++ [(min pageSize (maxRecords - acc.length), skip)])
      else
        fetchAllGo pages maxRecords pageSize fuel
          (acc ++ pages (min pageSize (maxRecords - acc.length)) skip)
          (skip + (pages (min pageSize (maxRecords - acc.length)) skip).length)
          (log ++ [(min pageSize (maxRecords - acc.length), skip)])
    else (acc, log)

/-- Embedding of `fetchAllOpenFda(baseUrl, maxRecords, pageSize)`: the paging
loop started from an empty aggregate and offset 0. -/
def fetchAllOpenFda {α : Type} (pages : Nat → Nat → List α) (maxRecords pageSize : Nat) :
    List α × List (Nat × Nat) :=
  fetchAllGo pages maxRecords pageSize maxRecords [] 0 []

/-- Page oracle of an endpoint holding `total` records (numbered from 0): a
request for `take` records at offset `skip` returns the records from `skip`
up to `min (skip + take) total`. -/
def boundedSource (total : Nat) : Nat → Nat → List Nat :=
  fun take skip => ((List.range total).drop skip).take take

/-- Length of a page served by `boundedSource`. -/
theorem boundedSource_length (total take skip : Nat) :
    (boundedSource total take skip).length = min take (total - skip) := by
  simp [boundedSource]

/-- Length invariant of the paging loop over a `boundedSource` endpoint: from
an aggregate whose length equals the offset, the loop adds exactly
`min available remaining` records. -/
theorem fetchAllGo_boundedSource_length (total maxR pS : Nat) (hpS : 0 < pS) :
    ∀ (fuel : Nat) (acc : List Nat) (skip : Nat) (log : List (Nat × Nat)),
      maxR - acc.length ≤ fuel → skip = acc.length →
      (fetchAllGo (boundedSource total) maxR pS fuel acc skip log).1.length
        = acc.length + min (total - skip) (maxR - acc.length) := by
  intro fuel
  induction fuel with
  | zero =>
    intro acc skip log hfuel hskip
    rw [fetchAllGo]
    dsimp only
    omega
  | succ fuel ih =>
    intro acc skip log hfuel hskip
    rw [fetchAllGo]
    by_cases hg : acc.length < maxR
    · rw [if_pos hg]
      simp only [boundedSource_length]
      by_cases h0 : min (min pS (maxR - acc.length)) (total - skip) = 0
      · rw [if_pos h0]
        dsimp only
        omega
      · rw [if_neg h0]
        by_cases hshort :
            min (min pS (maxR - acc.length)) (total - skip) < min pS (maxR - acc.length)
        · rw [if_pos hshort]
          dsimp only
          simp only [List.length_append, boundedSource_length]
          omega
        · rw [if_neg hshort]
          rw [ih (acc ++ boundedSource total (min pS (maxR - acc.length)) skip)
            (skip + min (min pS (maxR - acc.length)) (total - skip))
            (log ++ [(min pS (maxR - acc.length), skip)])
            (by simp only [List.length_append, boundedSource_length]; omega)
            (by simp only [List.length_append, boundedSource_length]; omega)]
          simp only [List.length_append, boundedSource_length]
          omega
    · rw [if_neg hg]
      dsimp only
      omega

/-- The paging loop never aggregates more than `maxRecords` records, provided
every page holds at most the number of records requested. -/
theorem fetchAllGo_length_le {α : Type} (pages : Nat → Nat → List α) (maxR pS : Nat)
    (hpages : ∀ t s, (pages t s).length ≤ t) :
    ∀ (fuel : Nat) (acc : List α) (skip : Nat) (log : List (Nat × Nat)),
      acc.length ≤ maxR →
      (fetchAllGo pages maxR pS fuel acc skip log).1.length ≤ maxR := by
  intro fuel
  induction fuel with
  | zero =>
    intro acc skip log hacc
    rw [fetchAllGo]
    exact hacc
  | succ fuel ih =>
    intro acc skip log hacc
    rw [fetchAllGo]
    by_cases hg : acc.length < maxR
    · rw [if_pos hg]
      have hp := hpages (min pS (maxR - acc.length)) skip
      by_cases h0 : (pages (min pS (maxR - acc.length)) skip).length = 0
      · rw [if_pos h0]
        exact hacc
      · rw [if_neg h0]
        by_cases hshort :
            (pages (min pS (maxR - acc.length)) skip).length < min pS (maxR - acc.length)
        · rw [if_pos hshort]
          simp only [List.length_append]
          omega
        · rw [if_neg hshort]
          exact ih _ _ _ (by simp only [List.length_append]; omega)
    · rw [if_neg hg]
      exact hacc

/-- Fuel stability of the paging loop: any two fuel budgets covering the
remaining record budget produce the same result, so the loop terminates
within `maxRecords` rounds. -/
theorem fetchAllGo_fuel_stable {α : Type} (pages : Nat → Nat → List α) (maxR pS : Nat) :
    ∀ (fuel1 fuel2 : Nat) (acc : List α) (skip : Nat) (log : List (Nat × Nat)),
      maxR - acc.length ≤ fuel1 → maxR - acc.length ≤ fuel2 →
      fetchAllGo pages maxR pS fuel1 acc skip log
        = fetchAllGo pages maxR pS fuel2 acc skip log := by
  intro fuel1
  induction fuel1 with
  | zero =>
    intro fuel2 acc skip log h1 h2
    match fuel2 with
    | 0 => rfl
    | fuel2 + 1 =>
      rw [fetchAllGo, fetchAllGo, if_neg (by omega)]
  | succ f1 ih =>
    intro fuel2 acc skip log h1 h2
    match fuel2 with
    | 0 =>
      rw [fetchAllGo, fetchAllGo, if_neg (by omega)]
    | f2 + 1 =>
      rw [fetchAllGo, fetchAllGo]
      by_cases hg : acc.length < maxR
      · rw [if_pos hg, if_pos hg]
        by_cases h0 : (pages (min pS (maxR - acc.length)) skip).length = 0
        · rw [if_pos h0, if_pos h0]
        · rw [if_neg h0, if_neg h0]
          by_cases hshort :
              (pages (min pS (maxR - acc.length)) skip).length < min pS (maxR - acc.length)
          · rw [if_pos hshort, if_pos hshort]
          · rw [if_neg hshort, if_neg hshort]
            exact ih f2 _ _ _
              (by simp only [List.length_append]; omega)
              (by simp only [List.length_append]; omega)
      · rw [if_neg hg, if_neg hg]

/-! Claim C1: pagination requests, offsets, and stop conditions. -/

set_option maxRecDepth 40000 in
/-- C1: over a source holding 260 records, requesting `maxRecords = 250` with
`pageSize = 100` aggregates exactly the first 250 records via three page
requests with `(limit, skip)` equal to `(100, 0)`, `(100, 100)` and
`(50, 200)` — each limit is the minimum of the page size and the remaining
budget and each skip advances by the number of records returned; over any
bounded source the aggregate has exactly `min total maxRecords` records, so
the loop stops exactly at the requested maximum or at end-of-data; and for an
arbitrary endpoint, a short (but nonempty) first page ends the aggregation
immediately with only that page, short of the maximum. -/
theorem C1_pagination :
    fetchAllOpenFda (boundedSource 260) 250 100 =
      (List.range 250, [(100, 0), (100, 100), (50, 200)])
    ∧ (∀ total maxRecords pageSize : Nat, 0 < pageSize →
        (fetchAllOpenFda (boundedSource total) maxRecords pageSize).1.length
          = min total maxRecords)
    ∧ (∀ (α : Type) (pages : Nat → Nat → List α) (maxRecords pageSize : Nat),
        0 < (pages (min pageSize maxRecords) 0).length →
        (pages (min pageSize maxRecords) 0).length < min pageSize maxRecords →
        fetchAllOpenFda pages maxRecords pageSize =
          (pages (min pageSize maxRecords) 0, [(min pageSize maxRecords, 0)])) := by
  refine ⟨by decide, ?_, ?_⟩
  · intro total maxRecords pageSize hpS
    rw [fetchAllOpenFda,
      fetchAllGo_boundedSource_length total maxRecords pageSize hpS maxRecords [] 0 []
        (by simp) rfl]
    simp
  · intro α pages maxRecords pageSize h0 hshort
    obtain ⟨m, rfl⟩ : ∃ m, maxRecords = m + 1 := ⟨maxRecords - 1, by omega⟩
    rw [fetchAllOpenFda, fetchAllGo, if_pos (by simp)]
    have hz : (m + 1) - ([] : List α).length = m + 1 := rfl
    rw [hz] at *
    rw [if_neg (by omega), if_pos hshort]
    simp

/-- C1 witness: over a source holding only 60 records, the 250-record request
stops early with exactly 60 records. -/
theorem C1_pagination_witness :
    (fetchAllOpenFda (boundedSource 60) 250 100).1.length = 60 := by
  exact (C1_pagination.2.1 60 250 100 (by omega)).trans (by decide)

/-! Claim C10: bounded aggregate size and loop termination. -/

/-- C10: if every fetched page holds at most the number of records requested
for it, the aggregation returns at most `maxRecords` records; and the loop
terminates, in that every fuel budget of at least `maxRecords` rounds gives
the same result as the canonical run. -/
theorem C10_bound_and_termination {α : Type} (pages : Nat → Nat → List α)
    (maxRecords pageSize : Nat) (hpages : ∀ t s, (pages t s).length ≤ t) :
    (fetchAllOpenFda pages maxRecords pageSize).1.length ≤ maxRecords
    ∧ (∀ fuel, maxRecords ≤ fuel →
        fetchAllGo pages maxRecords pageSize fuel [] 0 [] =
          fetchAllOpenFda pages maxRecords pageSize) := by
  constructor
  · exact fetchAllGo_length_le pages maxRecords pageSize hpages maxRecords [] 0 [] (by simp)
  · intro fuel hfuel
    exact fetchAllGo_fuel_stable pages maxRecords pageSize fuel maxRecords [] 0 []
      (by simp; omega) (by simp)

/-- C10 witness: `C10_bound_and_termination` at a concrete 5-record source. -/
theorem C10_bound_and_termination_witness :
    (fetchAllOpenFda (boundedSource 5) 3 2).1.length ≤ 3
    ∧ fetchAllGo (boundedSource 5) 3 2 10 [] 0 [] = fetchAllOpenFda (boundedSource 5) 3 2 := by
  have h := C10_bound_and_termination (boundedSource 5) 3 2
    (fun t s => by rw [boundedSource_length]; omega)
  exact ⟨h.1, h.2 10 (by omega)⟩

/-! Sorting (client `applyFiltersAndRender`, app.js lines 257-272). -/

/-- Lexicographic (code-point) comparison of character lists: `lexLeChars a b`
holds when `a` compares at most `b`.  On the all-ASCII ISO date strings the
sort key consists of, this agrees with the `localeCompare` the comparator
uses. -/
def lexLeChars : List Char → List Char → Bool
  | [], _ => true
  | _ :: _, [] => false
  | a :: as, b :: bs => if a = b then lexLeChars as bs else decide (a < b)

/-- Sort key of the `date_desc` comparator: the record's report date with an
absent date read as the empty string (`b.report_date || ""`). -/
def dateKey (r : UnifiedRecord) : List Char :=
  (r.report_date.getD "").data

/-- The `date_desc` ordering: `a` may precede `b` when the comparator
`(b.report_date || "").localeCompare(a.report_date || "")` is nonpositive,
i.e. `b`'s key is at most `a`'s key. -/
def dateDescRel (a b : UnifiedRecord) : Prop :=
  lexLeChars (dateKey b) (dateKey a) = true

instance : DecidableRel dateDescRel :=
  fun _ _ => inferInstanceAs (Decidable (_ = true))

/-- Totality of the lexicographic comparison. -/
theorem lexLeChars_total : ∀ a b : List Char, lexLeChars a b = true ∨ lexLeChars b a = true := by
  intro a
  induction a with
  | nil => intro b; left; rfl
  | cons x as ih =>
    intro b
    match b with
    | [] => right; rfl
    | y :: bs =>
      by_cases hxy : x = y
      · subst hxy
        rw [lexLeChars, lexLeChars, if_pos rfl, if_pos rfl]
        exact ih bs
      · rw [lexLeChars, lexLeChars, if_neg hxy, if_neg (Ne.symm hxy)]
        rcases lt_or_gt_of_ne hxy with h | h
        · left; exact decide_eq_true h
        · right; exact decide_eq_true h

/-- Transitivity of the lexicographic comparison. -/
theorem lexLeChars_trans :
    ∀ a b c : List Char,
      lexLeChars a b = true → lexLeChars b c = true → lexLeChars a c = true := by
  intro a
  induction a with
  | nil => intro b c h1 h2; rfl
  | cons x as ih =>
    intro b c h1 h2
    match b, c with
    | [], _ => rw [lexLeChars] at h1; cases h1
    | _ :: _, [] => rw [lexLeChars] at h2; cases h2
    | y :: bs, z :: cs =>
      rw [lexLeChars] at h1 h2 ⊢
      by_cases hxy : x = y <;> by_cases hyz : y = z
      · subst hxy; subst hyz
        rw [if_pos rfl] at h1 h2 ⊢
        exact ih bs cs h1 h2
      · subst hxy
        rw [if_neg hyz] at h2 ⊢
        exact h2
      · subst hyz
        rw [if_neg hxy] at h1 ⊢
        exact h1
      · rw [if_neg hxy] at h1
        rw [if_neg hyz] at h2
        have hxz : x < z := lt_trans (of_decide_eq_true h1) (of_decide_eq_true h2)
        rw [if_neg (ne_of_lt hxz)]
        exact decide_eq_true hxz

instance : IsTotal UnifiedRecord dateDescRel :=
  ⟨fun a b => lexLeChars_total (dateKey b) (dateKey a)⟩

instance : IsTrans UnifiedRecord dateDescRel :=
  ⟨fun _ _ _ h1 h2 => lexLeChars_trans _ _ _ h2 h1⟩

/-- Embedding of `items.sort((a, b) => (b.report_date || "").localeCompare(a.report_date || ""))`
for the `date_desc` option: `Array.prototype.sort` with a consistent
comparator produces the stable sort by that comparator, here a stable
insertion sort by `dateDescRel`. -/
def sortByDateDesc (items : List UnifiedRecord) : List UnifiedRecord :=
  items.insertionSort dateDescRel

/-- Concrete record with report date 2021-01-01, built through `normalize`. -/
def rec2021 : UnifiedRecord :=
  normalize "aaaaaaa" { emptyRawItem with report_date := some "20210101" } "Food"

/-- Concrete record with report date 2022-01-01, built through `normalize`. -/
def rec2022 : UnifiedRecord :=
  normalize "bbbbbbb" { emptyRawItem with report_date := some "20220101" } "Drug"

/-- Concrete record with no report date, built through `normalize`. -/
def recNoDate : UnifiedRecord :=
  normalize "ccccccc" emptyRawItem "Food"

/-! Claim C7: `date_desc` sorting. -/

/-- C7: sorting by `date_desc` orders records by descending lexical
comparison of their report-date strings with an absent date read as the
empty string: on records dated 2021-01-01, 2022-01-01 and undated, the 2022
record comes first, then the 2021 record, and the undated record sorts last;
in general the result is a permutation of the input that is sorted for the
descending-date relation, hence deterministic. -/
theorem C7_sort_date_desc :
    sortByDateDesc [rec2021, rec2022, recNoDate] = [rec2022, rec2021, recNoDate]
    ∧ (∀ items : List UnifiedRecord,
        (sortByDateDesc items).Perm items
          ∧ (sortByDateDesc items).Sorted dateDescRel) := by
  refine ⟨by decide, fun items => ⟨?_, ?_⟩⟩
  · exact List.perm_insertionSort dateDescRel items
  · exact List.sorted_insertionSort dateDescRel items

/-! Geocode queue (client `enqueueGeocode`/`runGeomQueue`, app.js lines 98-136). -/

/-- Lookup in the geocode cache (a JS object): `none` when the key is absent,
`some v` when bound — where `v = none` is a stored null miss and
`v = some c` a stored coordinate value. -/
def geoLookup {γ : Type} : List (String × Option γ) → String → Option (Option γ)
  | [], _ => none
  | (k, v) :: rest, q => if k = q then some v else geoLookup rest q

/-- Embedding of the drain loop of `runGeomQueue`, processing the queued
address strings in order against the geocoder oracle `g` (the Nominatim
request: an explicit `none` means no match was found, an error a failed
request).  For each address: a cache binding to a coordinate value is truthy
and is delivered without network access; an absent binding or a stored null
miss is falsy, so one network request is issued and its outcome (including an
explicit miss) is stored in the cache; a request error is delivered without
touching the cache.  Returns the final cache, the addresses requested over
the network in order, and the delivered callback outcomes in order. -/
def runGeomQueue {γ : Type} (g : String → Except String (Option γ)) :
    List String → List (String × Option γ) →
      List (String × Option γ) × List String × List (Except String (Option γ))
  | [], cache => (cache, [], [])
  | q :: rest, cache =>
    match geoLookup cache q with
    | some (some c) =>
      ((runGeomQueue g rest cache).1, (runGeomQueue g rest cache).2.1,
        Except.ok (some c) :: (runGeomQueue g rest cache).2.2)
    | _ =>
      match g q with
      | Except.error e =>
        ((runGeomQueue g rest cache).1, q :: (runGeomQueue g rest cache).2.1,
          Except.error e :: (runGeomQueue g rest cache).2.2)
      | Except.ok val =>
        ((runGeomQueue g rest ((q, val) :: cache)).1,
          q :: (runGeomQueue g rest ((q, val) :: cache)).2.1,
          Except.ok val :: (runGeomQueue g rest ((q, val) :: cache)).2.2)

/-! Claim C5: geocode cache idempotence. -/

/-- C5 counterexample: for an address whose first geocode outcome is an
explicit null miss, the miss is stored in the cache, yet enqueueing the same
address twice issues two network requests — the stored `null` is falsy, so
the cache check does not treat it as a hit. -/
theorem C5_counterexample :
    (runGeomQueue (γ := Nat) (fun _ => Except.ok none)
        ["742 Evergreen Terrace", "742 Evergreen Terrace"] []).2.1.length = 2
    ∧ geoLookup (runGeomQueue (γ := Nat) (fun _ => Except.ok none)
        ["742 Evergreen Terrace", "742 Evergreen Terrace"] []).1 "742 Evergreen Terrace"
      = some none := by
  exact ⟨rfl, rfl⟩

/-- C5 (amended): enqueueing the same address twice issues exactly one
network request when the first outcome is a coordinate pair — the second
enqueue is then served from the cache without network access; when the first
outcome is an explicit null miss, the miss is stored in the cache but is not
treated as a hit, so the second enqueue issues a second network request. -/
theorem C5_geocache_idempotence {γ : Type} (g : String → Except String (Option γ))
    (q : String) :
    (∀ c, g q = Except.ok (some c) →
      (runGeomQueue g [q, q] []).2.1 = [q]
        ∧ (runGeomQueue g [q, q] []).2.2 = [Except.ok (some c), Except.ok (some c)]
        ∧ geoLookup (runGeomQueue g [q, q] []).1 q = some (some c))
    ∧ (g q = Except.ok none →
      (runGeomQueue g [q, q] []).2.1 = [q, q]
        ∧ geoLookup (runGeomQueue g [q, q] []).1 q = some none) := by
  constructor
  · intro c h
    simp [runGeomQueue, geoLookup, h]
  · intro h
    simp [runGeomQueue, geoLookup, h]

/-- C5 witness: `C5_geocache_idempotence` at a geocoder that finds the
address: one network request, both callbacks delivered with the coordinate. -/
theorem C5_geocache_idempotence_witness :
    (runGeomQueue (γ := Nat) (fun _ => Except.ok (some 7)) ["1 Main St", "1 Main St"] []).2.1
      = ["1 Main St"]
    ∧ (runGeomQueue (γ := Nat) (fun _ => Except.ok (some 7)) ["1 Main St", "1 Main St"] []).2.2
      = [Except.ok (some 7), Except.ok (some 7)] := by
  have h := (C5_geocache_idempotence (γ := Nat) (fun _ => Except.ok (some 7)) "1 Main St").1 7 rfl
  exact ⟨h.1, h.2.1⟩

/-! The `/api/recalls` handler (server lines 105-295). -/

/-- Per-source fetch error record `{endpoint, reason}` (server lines 149-151,
165-167). -/
structure FetchError where
  endpoint : String
  reason : String
deriving DecidableEq

/-- A JSON success payload of the handler: `{count, results, retried?, errors?}`.
The model always carries the `retried` flag and the error list; the source
omits `retried` on the normal path and `errors` when empty. -/
structure Payload where
  count : Nat
  results : List UnifiedRecord
  retried : Bool
  errors : List FetchError
deriving DecidableEq

/-- Builds the handler's success payload (server lines 196-202 and 246-255):
normalized food records, in fetch order, followed by normalized drug records,
in fetch order, with `count` the length of the combined array.  `rand` is the
stream of generated identifier suffixes, one per normalized record. -/
def buildPayload (rand : Nat → String) (foodResults drugResults : List RawItem)
    (errors : List FetchError) (retriedFlag : Bool) : Payload :=
  let unified :=
    foodResults.mapIdx (fun i r => normalize (rand i) r "Food")
      ++ drugResults.mapIdx (fun i r => normalize (rand (foodResults.length + i)) r "Drug")
  { count := unified.length, results := unified, retried := retriedFlag, errors := errors }

/-- An outbound request of the handler: a paginated endpoint aggregation with
its `maxRecords`/`pageSize` budget, or the connectivity probe with its
attempt budget. -/
inductive Action where
  | pageFetch (endpoint : String) (maxRecords pageSize : Nat)
  | probe (attempts : Nat)
deriving DecidableEq

/-- A response of the handler: a JSON success body, or an error body of shape
`{error, details, message}` with its HTTP status. -/
inductive RecallsResponse where
  | json (status : Nat) (payload : Payload)
  | errorJson (status : Nat) (error : String) (details : List FetchError) (message : String)
deriving DecidableEq

/-- Outcomes of the handler's five possible external calls: the two initial
`fetchAllOpenFda(base, 250, 500)` aggregations, the single-attempt
connectivity probe `fetchOpenFda(quickTest, 1)`, and the two retry
aggregations `fetchAllOpenFda(base, 500, 50)`.  An `Except.error` is the
message of the error the call threw. -/
structure Env where
  foodFetch : Except String (List RawItem)
  drugFetch : Except String (List RawItem)
  probeFetch : Except String Unit
  retryFoodFetch : Except String (List RawItem)
  retryDrugFetch : Except String (List RawItem)

/-- Result list of a fetch, with a thrown error caught and the results left
empty (server lines 144-157 and the `.catch(() => [])` of the retries). -/
def fetchedOrEmpty : Except String (List RawItem) → List RawItem
  | Except.ok l => l
  | Except.error _ => []

/-- Error records pushed for one endpoint fetch (server lines 148-157). -/
def fetchErrorsOf (endpoint : String) : Except String (List RawItem) → List FetchError
  | Except.ok _ => []
  | Except.error e => [⟨endpoint, e⟩]

/-- Errors recorded by the two initial fetches, food first (server order). -/
def recordedErrors (env : Env) : List FetchError :=
  fetchErrorsOf "food" env.foodFetch ++ fetchErrorsOf "drug" env.drugFetch

/-- Model of `String.prototype.includes`: contiguous substring test. -/
def containsSub (s pat : String) : Bool :=
  (List.range (s.data.length + 1)).any fun i => pat.data.isPrefixOf (s.data.drop i)

/-- The hard network-failure markers of the fallback guard (server lines
209-217). -/
def networkMarkers : List String :=
  ["ECONNREFUSED", "ETIMEDOUT", "ENOTFOUND", "socket", "TLS"]

/-- One recorded reason looks like a hard network failure: it is truthy and
contains one of the markers (server lines 209-217). -/
def reasonLooksNetwork (reason : String) : Bool :=
  !(reason == "") && networkMarkers.any (fun m => containsSub reason m)

/-- The `errors.some(...)` network-failure test of the fallback guard. -/
def hasNetworkErrorIn (errors : List FetchError) : Bool :=
  errors.any fun e => reasonLooksNetwork e.reason

/-- The `error` field of the final-failure body (server line 274). -/
def failError : String := "Both openFDA endpoints failed"

/-- The `message` field of the final-failure body (server lines 276-277). -/
def failMessage : String :=
  "Unable to fetch food and drug recall data. Please check network connectivity."

/-- Embedding of the `/api/recalls` handler (server lines 141-295) over the
external-call outcomes `env`: both endpoints are aggregated with
`maxRecords = 250, pageSize = 500` and their failures recorded; when both
yield zero records, reasons free of network markers trigger the
single-attempt connectivity probe, a reachable service triggers one retry of
both endpoints with `maxRecords = 500, pageSize = 50` whose records are
returned marked `retried`, and every recordless path ends in the 502
`{error, details, message}` body.  The second component is the trace of
outbound requests. -/
def handleRecalls (rand : Nat → String) (env : Env) : RecallsResponse × List Action :=
  let foodResults := fetchedOrEmpty env.foodFetch
  let drugResults := fetchedOrEmpty env.drugFetch
  let errors := recordedErrors env
  let initialActions := [Action.pageFetch "food" 250 500, Action.pageFetch "drug" 250 500]
  if foodResults.length = 0 ∧ drugResults.length = 0 then
    if hasNetworkErrorIn errors then
      (RecallsResponse.errorJson 502 failError errors failMessage, initialActions)
    else
      match env.probeFetch with
      | Except.error _ =>
        (RecallsResponse.errorJson 502 failError errors failMessage,
          initialActions ++ [Action.probe 1])
      | Except.ok _ =>
        let retryFood := fetchedOrEmpty env.retryFoodFetch
        let retryDrug := fetchedOrEmpty env.retryDrugFetch
        let retryActions := initialActions
          ++ [Action.probe 1, Action.pageFetch "food" 500 50, Action.pageFetch "drug" 500 50]
        if retryFood.length ≠ 0 ∨ retryDrug.length ≠ 0 then
          (RecallsResponse.json 200 (buildPayload rand retryFood retryDrug errors true),
            retryActions)
        else
          (RecallsResponse.errorJson 502 failError errors failMessage, retryActions)
  else
    (RecallsResponse.json 200 (buildPayload rand foodResults drugResults errors false),
      initialActions)

/-! Claim C3: dual-failure fallback behavior. -/

/-- C3: when both endpoint fetches yield zero records and no recorded reason
contains a hard network-failure marker, the handler issues exactly one
connectivity probe, with a single-attempt budget, before declaring final
failure; if the probe succeeds, both endpoints are retried exactly once more
with `maxRecords = 500` and `pageSize = 50`, and any records from that retry
are returned as a 200 JSON payload marked `retried`; if no records are
obtained by any path, the handler responds 502 with a body of shape
`{error, details, message}` rather than an empty success. -/
theorem C3_dual_failure_fallback (rand : Nat → String) (env : Env)
    (hfood : fetchedOrEmpty env.foodFetch = [])
    (hdrug : fetchedOrEmpty env.drugFetch = [])
    (hnet : hasNetworkErrorIn (recordedErrors env) = false) :
    ((handleRecalls rand env).2.countP
        (fun a => match a with | Action.probe _ => true | _ => false) = 1
      ∧ Action.probe 1 ∈ (handleRecalls rand env).2)
    ∧ (env.probeFetch = Except.ok () →
        (handleRecalls rand env).2.count (Action.pageFetch "food" 500 50) = 1
          ∧ (handleRecalls rand env).2.count (Action.pageFetch "drug" 500 50) = 1)
    ∧ (env.probeFetch = Except.ok () →
        (fetchedOrEmpty env.retryFoodFetch ≠ [] ∨ fetchedOrEmpty env.retryDrugFetch ≠ []) →
        (handleRecalls rand env).1 =
          RecallsResponse.json 200
            (buildPayload rand (fetchedOrEmpty env.retryFoodFetch)
              (fetchedOrEmpty env.retryDrugFetch) (recordedErrors env) true))
    ∧ ((env.probeFetch.isOk = false
          ∨ (fetchedOrEmpty env.retryFoodFetch = [] ∧ fetchedOrEmpty env.retryDrugFetch = [])) →
        (handleRecalls rand env).1 =
          RecallsResponse.errorJson 502 failError (recordedErrors env) failMessage) := by
  have hcond : (fetchedOrEmpty env.foodFetch).length = 0
      ∧ (fetchedOrEmpty env.drugFetch).length = 0 := by
    rw [hfood, hdrug]; exact ⟨rfl, rfl⟩
  rcases henv : env.probeFetch with e | u
  · -- the probe itself threw: final failure after the single probe
    have hh : handleRecalls rand env =
        (RecallsResponse.errorJson 502 failError (recordedErrors env) failMessage,
          [Action.pageFetch "food" 250 500, Action.pageFetch "drug" 250 500,
            Action.probe 1]) := by
      simp only [handleRecalls]
      rw [if_pos hcond, if_neg (by simp [hnet]), henv]
      rfl
    refine ⟨?_, ?_, ?_, ?_⟩
    · rw [hh]; dsimp only; exact ⟨by decide, by decide⟩
    · intro hok; simp at hok
    · intro hok; simp at hok
    · intro _; rw [hh]
  · -- probe succeeded
    by_cases hr : (fetchedOrEmpty env.retryFoodFetch).length ≠ 0
        ∨ (fetchedOrEmpty env.retryDrugFetch).length ≠ 0
    · have hh : handleRecalls rand env =
          (RecallsResponse.json 200
            (buildPayload rand (fetchedOrEmpty env.retryFoodFetch)
              (fetchedOrEmpty env.retryDrugFetch) (recordedErrors env) true),
            [Action.pageFetch "food" 250 500, Action.pageFetch "drug" 250 500,
              Action.probe 1, Action.pageFetch "food" 500 50,
              Action.pageFetch "drug" 500 50]) := by
        simp only [handleRecalls]
        rw [if_pos hcond, if_neg (by simp [hnet]), henv]
        dsimp only
        rw [if_pos hr]
        rfl
      refine ⟨?_, ?_, ?_, ?_⟩
      · rw [hh]; dsimp only; exact ⟨by decide, by decide⟩
      · intro _; rw [hh]; dsimp only; exact ⟨by decide, by decide⟩
      · intro _ _; rw [hh]
      · intro h4
        rcases h4 with h4 | h4
        · simp [Except.isOk, Except.toBool] at h4
        · rcases hr with h | h
          · exact absurd (by rw [h4.1]; rfl) h
          · exact absurd (by rw [h4.2]; rfl) h
    · have hh : handleRecalls rand env =
          (RecallsResponse.errorJson 502 failError (recordedErrors env) failMessage,
            [Action.pageFetch "food" 250 500, Action.pageFetch "drug" 250 500,
              Action.probe 1, Action.pageFetch "food" 500 50,
              Action.pageFetch "drug" 500 50]) := by
        simp only [handleRecalls]
        rw [if_pos hcond, if_neg (by simp [hnet]), henv]
        dsimp only
        rw [if_neg hr]
        rfl
      refine ⟨?_, ?_, ?_, ?_⟩
      · rw [hh]; dsimp only; exact ⟨by decide, by decide⟩
      · intro _; rw [hh]; dsimp only; exact ⟨by decide, by decide⟩
      · intro _ hne
        push_neg at hr
        rcases hne with h | h
        · exact absurd (List.length_eq_zero.mp hr.1) h
        · exact absurd (List.length_eq_zero.mp hr.2) h
      · intro _; rw [hh]

/-- Concrete environment: both initial fetches return zero records with no
error, the probe succeeds, and the food retry returns one record. -/
def envRetry : Env :=
  ⟨Except.ok [], Except.ok [], Except.ok (), Except.ok [emptyRawItem], Except.ok []⟩

/-- Identifier-suffix stream for concrete handler runs. -/
def randW : Nat → String := fun _ => "w0rd555"

/-- C3 witness: `C3_dual_failure_fallback` on `envRetry`: one probe is
issued and the retry records come back as a 200 payload marked `retried`. -/
theorem C3_dual_failure_fallback_witness :
    (handleRecalls randW envRetry).2.countP
        (fun a => match a with | Action.probe _ => true | _ => false) = 1
    ∧ (handleRecalls randW envRetry).1 =
        RecallsResponse.json 200
          (buildPayload randW [emptyRawItem] [] (recordedErrors envRetry) true) := by
  have h := C3_dual_failure_fallback randW envRetry rfl rfl rfl
  refine ⟨h.1.1, ?_⟩
  exact h.2.2.1 rfl (Or.inl (by simp [envRetry, fetchedOrEmpty]))

/-! Claim C9: success payload invariant. -/

/-- C9: in every JSON success response of the handler — the normal payload
and the retried payload alike — the `count` field equals the length of the
`results` array, and `results` is the normalized food records, in fetch
order, followed by the normalized drug records, in fetch order, drawn from
the initial fetches on the normal path and from the retry fetches on the
retried path. -/
theorem C9_payload_invariant (rand : Nat → String) (env : Env) (status : Nat) (p : Payload)
    (h : (handleRecalls rand env).1 = RecallsResponse.json status p) :
    p.count = p.results.length
    ∧ ((p.retried = false
          ∧ p.results =
              (fetchedOrEmpty env.foodFetch).mapIdx (fun i r => normalize (rand i) r "Food")
                ++ (fetchedOrEmpty env.drugFetch).mapIdx
                    (fun i r =>
                      normalize (rand ((fetchedOrEmpty env.foodFetch).length + i)) r "Drug"))
      ∨ (p.retried = true
          ∧ p.results =
              (fetchedOrEmpty env.retryFoodFetch).mapIdx (fun i r => normalize (rand i) r "Food")
                ++ (fetchedOrEmpty env.retryDrugFetch).mapIdx
                    (fun i r =>
                      normalize (rand ((fetchedOrEmpty env.retryFoodFetch).length + i))
                        r "Drug"))) := by
  simp only [handleRecalls] at h
  by_cases hc : (fetchedOrEmpty env.foodFetch).length = 0
      ∧ (fetchedOrEmpty env.drugFetch).length = 0
  · rw [if_pos hc] at h
    by_cases hn : hasNetworkErrorIn (recordedErrors env) = true
    · rw [if_pos hn] at h
      dsimp only at h
      exact absurd h (by simp)
    · rw [if_neg hn] at h
      rcases henv : env.probeFetch with e | u
      · rw [henv] at h
        dsimp only at h
        exact absurd h (by simp)
      · rw [henv] at h
        dsimp only at h
        by_cases hr : (fetchedOrEmpty env.retryFoodFetch).length ≠ 0
            ∨ (fetchedOrEmpty env.retryDrugFetch).length ≠ 0
        · rw [if_pos hr] at h
          dsimp only at h
          have hp : buildPayload rand (fetchedOrEmpty env.retryFoodFetch)
              (fetchedOrEmpty env.retryDrugFetch) (recordedErrors env) true = p := by
            injection h
          rw [← hp]
          exact ⟨rfl, Or.inr ⟨rfl, rfl⟩⟩
        · rw [if_neg hr] at h
          dsimp only at h
          exact absurd h (by simp)
  · rw [if_neg hc] at h
    dsimp only at h
    have hp : buildPayload rand (fetchedOrEmpty env.foodFetch)
        (fetchedOrEmpty env.drugFetch) (recordedErrors env) false = p := by
      injection h
    rw [← hp]
    exact ⟨rfl, Or.inl ⟨rfl, rfl⟩⟩

/-- Concrete environment: the food fetch returns one record, the drug fetch
none, and no error occurs. -/
def envHappy : Env :=
  ⟨Except.ok [emptyRawItem], Except.ok [], Except.ok (), Except.ok [], Except.ok []⟩

/-- C9 witness: `C9_payload_invariant` on `envHappy`. -/
theorem C9_payload_invariant_witness :
    (buildPayload randW [emptyRawItem] [] (recordedErrors envHappy) false).count
      = (buildPayload randW [emptyRawItem] [] (recordedErrors envHappy) false).results.length := by
  have h := C9_payload_invariant randW envHappy 200
    (buildPayload randW [emptyRawItem] [] (recordedErrors envHappy) false) rfl
  exact h.1

end HazardAtlas
